import Mathlib

/-!
Shallow embedding of `src/rayserve_deployments/llm_serve.py`.

The Python module defines:
- `LLMModel` with lazy `start()` (loads a llama-cpp model once) and an async
  `__call__(requests)` that processes a batch of request dicts into result
  dicts, one per request, in order, with per-request exception containment;
- `LLMService`, a Ray Serve deployment that forwards batches to `LLMModel`
  and whose `reconfigure(user_config)` replaces the batching parameters.

Python dicts with optional keys are embedded as structures with `Option`
fields (`none` = key absent or value `null`).  Exceptions are embedded as
`Except String` with the exception message as the error value.  The
llama-cpp engine (`Llama(...)` construction and `create_chat_completion`)
is external to the repository, so it is an oracle parameter: `loader` plays
the `Llama` constructor, `engine` plays `create_chat_completion`.
Python truthiness of the `tools` value (`None` and `[]` are falsy) is
embedded explicitly.
-/

/-- A chat message; its internal shape is irrelevant to the batching logic. -/
structure ChatMessage where
  role : String
  content : String
deriving Repr, DecidableEq

/-- A tool specification, opaque to the serving layer. -/
structure ToolSpec where
  name : String
deriving Repr, DecidableEq

/-- A `tool_choice` value, opaque to the serving layer. -/
structure ToolChoice where
  choice : String
deriving Repr, DecidableEq

/-- A tool call returned by the model, opaque to the serving layer. -/
structure ToolCall where
  name : String
  arguments : String
deriving Repr, DecidableEq

/-- Token-usage accounting: a mapping, embedded as an association list. -/
def Usage : Type := List (String × Nat)

instance : DecidableEq Usage := by
  unfold Usage
  infer_instance

instance : Repr Usage := by
  unfold Usage
  infer_instance

/-- An inbound request dict.  Every key may be absent (`request.get` with a
default in the source), hence every field is an `Option`. -/
structure Request where
  request_id : Option String
  messages : Option (List ChatMessage)
  max_tokens : Option Int
  temperature : Option Rat
  tools : Option (List ToolSpec)
  tool_choice : Option ToolChoice
deriving Repr, DecidableEq

/-- A result dict appended to `results` by `LLMModel.__call__`.  The
`usage` field is `none` exactly when the Python dict has no `"usage"` key
(the two failure dict literals omit it). -/
structure Result where
  request_id : String
  success : Bool
  error : Option String
  content : Option String
  tool_calls : Option (List ToolCall)
  usage : Option Usage
deriving Repr, DecidableEq

/-- The `response_format` argument of `create_chat_completion`:
`{"type": "json_object"}` embedded as its `"type"` value. -/
structure ResponseFormat where
  rtype : String
deriving Repr, DecidableEq

/-- The argument record of one `self.model.create_chat_completion(...)`
invocation (source lines 63-70). -/
structure ModelCall where
  messages : List ChatMessage
  max_tokens : Int
  temperature : Rat
  tools : Option (List ToolSpec)
  tool_choice : Option ToolChoice
  response_format : Option ResponseFormat
deriving Repr, DecidableEq

/-- The `message` field of a chat-completion choice. -/
structure ModelMessage where
  content : Option String
  tool_calls : Option (List ToolCall)
deriving Repr, DecidableEq

/-- One element of `response["choices"]`. -/
structure Choice where
  message : ModelMessage
deriving Repr, DecidableEq

/-- A chat-completion response: `choices` plus optional `usage`. -/
structure ModelResponse where
  choices : List Choice
  usage : Option Usage
deriving Repr, DecidableEq

/-- The loaded llama-cpp model handle (opaque; carries an identifier). -/
structure LoadedModel where
  handle : Nat
deriving Repr, DecidableEq

/-- Python truthiness of the `tools` value: `None` and the empty list are
falsy, a non-empty list is truthy (`if tools` at source line 69). -/
def pyTruthy (tools : Option (List ToolSpec)) : Bool :=
  match tools with
  | none => false
  | some l => !l.isEmpty

/-- The `Llama` constructor as an oracle: takes `model_path`, `n_ctx`,
`n_gpu_layers` (the `n_threads` environment read is part of the oracle
closure) and either returns a handle or raises. -/
def Loader : Type := String → Int → Int → Except String LoadedModel

/-- The `create_chat_completion` call as an oracle on a loaded model: returns a
response or raises. -/
def Engine : Type := LoadedModel → ModelCall → Except String ModelResponse

/-- The `ModelCall` built for a request from source lines 41-46 and 63-70:
defaults `max_tokens=512`, `temperature=0.1`, `tools=None`,
`tool_choice=None`, and `response_format={"type": "json_object"} if tools
else None`. -/
def requestCall (request : Request) : ModelCall :=
  { messages := request.messages.getD []
    max_tokens := request.max_tokens.getD 512
    temperature := request.temperature.getD (1/10)
    tools := request.tools  -- `request.get("tools", None)` is the stored value or `None`
    tool_choice := request.tool_choice
    response_format :=
      if pyTruthy request.tools then some { rtype := "json_object" } else none }

/-- The failure result dict shape shared by the three failure sites of
`LLMModel.__call__` (lines 52-58, 94-100, and an out-of-range first
choice): no `"usage"` key. -/
def failureResult (request_id : String) (error : String) : Result :=
  { request_id := request_id
    success := false
    error := some error
    content := none
    tool_calls := none
    usage := none }

/-- One iteration of the `for request in requests` loop of
`LLMModel.__call__` (source lines 40-100), given a bound
`create_chat_completion` oracle.  `response["choices"][0]` on an empty
`choices` list raises `IndexError("list index out of range")`, which the
`except` clause converts like any other exception. -/
def processRequest (model : ModelCall → Except String ModelResponse)
    (request : Request) : Result :=
  let request_id := request.request_id.getD "unknown"
  let messages := request.messages.getD []
  if messages = [] then
    failureResult request_id "empty_messages"
  else
    match model (requestCall request) with
    | .error e => failureResult request_id e
    | .ok response =>
      match response.choices.head? with
      | none => failureResult request_id "list index out of range"
      | some choice =>
        { request_id := request_id
          success := true
          error := none
          content := choice.message.content
          tool_calls := choice.message.tool_calls
          usage := some (response.usage.getD []) }

/-- The whole `for` loop: results are appended in request order. -/
def processBatch (model : ModelCall → Except String ModelResponse) :
    List Request → List Result
  | [] => []
  | request :: rest => processRequest model request :: processBatch model rest

/-- The `LLMModel` object state (source lines 15-20). -/
structure LLMModel where
  model_path : String
  n_ctx : Int
  n_gpu_layers : Int
  model : Option LoadedModel
deriving Repr, DecidableEq

/-- Python `LLMModel.__init__`: stores the construction parameters, model not yet
loaded. -/
def LLMModel.init (model_path : String) (n_ctx : Int := 8192)
    (n_gpu_layers : Int := 0) : LLMModel :=
  { model_path := model_path, n_ctx := n_ctx, n_gpu_layers := n_gpu_layers,
    model := none }

/-- Python `LLMModel.start` (source lines 22-34): if `self.model is None`, call the
`Llama` constructor with the construction-time `model_path`, `n_ctx`,
`n_gpu_layers`; a constructor exception propagates. -/
def LLMModel.start (loader : Loader) (self : LLMModel) :
    Except String LLMModel :=
  match self.model with
  | some _ => .ok self
  | none =>
    match loader self.model_path self.n_ctx self.n_gpu_layers with
    | .error e => .error e
    | .ok m => .ok { self with model := some m }

/-- The `self.model.create_chat_completion` access as seen by the loop body: if
`self.model` were still `None`, Python would raise an `AttributeError`
inside the per-request `try` (unreachable after a successful `start`). -/
def modelOf (engine : Engine) (self : LLMModel) :
    ModelCall → Except String ModelResponse :=
  fun c =>
    match self.model with
    | some m => engine m c
    | none => .error "NoneType has no attribute create_chat_completion"

/-- Python `LLMModel.__call__` (source lines 36-102): `self.start()` runs outside
any `try`, so a load failure propagates; otherwise the loop produces one
result per request.  Returns the updated object state and the results. -/
def LLMModel.call (loader : Loader) (engine : Engine) (self : LLMModel)
    (requests : List Request) : Except String (LLMModel × List Result) :=
  match LLMModel.start loader self with
  | .error e => .error e
  | .ok started => .ok (started, processBatch (modelOf engine started) requests)

/-- The `user_config` dict passed to `LLMService.reconfigure`; both keys may
be absent. -/
structure UserConfig where
  max_batch_size : Option Int
  batch_wait_timeout_s : Option Rat
deriving Repr, DecidableEq

/-- The `LLMService` deployment state (source lines 126-140): the wrapped
`LLMModel`, the two config attributes, and the `serve.batch` wrapper
parameters of the decorated `LLMService.__call__` (16 and 0.05 from the
decorator at line 138; `reconfigure` attempts but never manages to update
them, see `LLMService.reconfigure`). -/
structure LLMService where
  model : LLMModel
  max_batch_size : Int
  batch_wait_timeout_s : Rat
  serve_max_batch_size : Int
  serve_batch_wait_timeout_s : Rat
deriving Repr, DecidableEq

/-- Python `LLMService.__init__` (source lines 127-130) together with the
`serve.batch` decorator defaults (line 138). -/
def LLMService.init (model_path : String) (n_ctx : Int := 8192)
    (n_gpu_layers : Int := 0) : LLMService :=
  { model := LLMModel.init model_path n_ctx n_gpu_layers
    max_batch_size := 16
    batch_wait_timeout_s := 1/20
    serve_max_batch_size := 16
    serve_batch_wait_timeout_s := 1/20 }

/-- Python `LLMService.reconfigure` (source lines 132-136).  Lines 133-134
unconditionally overwrite the two instance attributes with
`user_config.get(key, default)`.  Line 135 then evaluates
`self.model.__call__.set_max_batch_size`: the `serve.batch` decorator was
applied to `LLMService.__call__` (line 138), not to `LLMModel.__call__`
(line 36), which is a plain undecorated method, so this attribute lookup
raises `AttributeError` on every call and the wrapper parameters are never
updated.  The embedding returns the object state as mutated when the
method exits together with the exception that propagates (`none` would
mean a normal return, which this code can never take). -/
def LLMService.reconfigure (self : LLMService) (user_config : UserConfig) :
    LLMService × Option String :=
  let mutated := { self with
    max_batch_size := user_config.max_batch_size.getD 16
    batch_wait_timeout_s := user_config.batch_wait_timeout_s.getD (1/20) }
  (mutated, some "AttributeError: function object has no attribute set_max_batch_size")

/-- Python `LLMService.__call__` (source lines 138-140): forwards the batch to the
wrapped `LLMModel`; any exception from it propagates. -/
def LLMService.call (loader : Loader) (engine : Engine) (self : LLMService)
    (requests : List Request) : Except String (LLMService × List Result) :=
  match LLMModel.call loader engine self.model requests with
  | .error e => .error e
  | .ok (m, results) => .ok ({ self with model := m }, results)


/-! ## Concrete witness data -/

/-- Concrete witness data: a loader that succeeds with handle 0. -/
def loaderW : Loader := fun _ _ _ => .ok { handle := 0 }

/-- Concrete witness data: an engine that always answers with one choice. -/
def engineW : Engine := fun _ _ =>
  .ok { choices := [{ message := { content := some "hi", tool_calls := none } }]
        usage := some [("total_tokens", 3)] }

/-- Concrete witness data: a well-formed request. -/
def reqA : Request :=
  { request_id := some "r1"
    messages := some [{ role := "user", content := "hello" }]
    max_tokens := none
    temperature := none
    tools := none
    tool_choice := none }

/-- Concrete witness data: a second well-formed request. -/
def reqB : Request :=
  { request_id := some "r2"
    messages := some [{ role := "user", content := "bye" }]
    max_tokens := some 64
    temperature := some (1/2)
    tools := some [{ name := "t" }]
    tool_choice := some { choice := "auto" } }

/-- Concrete witness data: the model state after `loaderW` ran. -/
def startedW : LLMModel :=
  { model_path := "m", n_ctx := 8192, n_gpu_layers := 0, model := some { handle := 0 } }

/-- Concrete witness data: an engine whose invocation always raises. -/
def engineRaiseW : Engine := fun _ _ => .error "boom"

/-- Concrete witness data: a request whose `messages` key is absent. -/
def reqEmptyW : Request :=
  { request_id := none
    messages := none
    max_tokens := none
    temperature := none
    tools := none
    tool_choice := none }

/-- Concrete counterexample data: a `Llama` constructor that raises. -/
def badLoaderW : Loader := fun _ _ _ => .error "failed to load model"

/-- Concrete counterexample data: a config update carrying
`max_batch_size = 0`. -/
def cfgZeroW : UserConfig :=
  { max_batch_size := some 0, batch_wait_timeout_s := some (1/20) }

/-- Concrete counterexample data: a config update that satisfies the
claimed validation rules (`max_batch_size > 0`, timeout `≥ 0`). -/
def cfgValidW : UserConfig :=
  { max_batch_size := some 8, batch_wait_timeout_s := some (1/10) }

/-- Concrete witness data: the response `engineW` always returns. -/
def respW : ModelResponse :=
  { choices := [{ message := { content := some "hi", tool_calls := none } }]
    usage := some [("total_tokens", 3)] }

/-! ## Helper lemmas -/

/-- The appending loop is positionally a map. -/
theorem processBatch_eq_map (model : ModelCall → Except String ModelResponse)
    (requests : List Request) :
    processBatch model requests = requests.map (processRequest model) := by
  induction requests with
  | nil => rfl
  | cons r rest ih => simp [processBatch, ih]

/-- Equation: a request with empty effective messages yields the
`empty_messages` failure. -/
theorem processRequest_empty (model : ModelCall → Except String ModelResponse)
    (r : Request) (hm : r.messages.getD [] = []) :
    processRequest model r =
      failureResult (r.request_id.getD "unknown") "empty_messages" := by
  unfold processRequest
  rw [if_pos hm]

/-- Equation: a raising invocation yields a failure carrying the message. -/
theorem processRequest_error (model : ModelCall → Except String ModelResponse)
    (r : Request) (e : String) (hm : ¬r.messages.getD [] = [])
    (he : model (requestCall r) = .error e) :
    processRequest model r = failureResult (r.request_id.getD "unknown") e := by
  unfold processRequest
  rw [if_neg hm, he]

/-- Equation: a response with no choices raises `IndexError`, caught as a
failure. -/
theorem processRequest_ok_none (model : ModelCall → Except String ModelResponse)
    (r : Request) (response : ModelResponse) (hm : ¬r.messages.getD [] = [])
    (he : model (requestCall r) = .ok response)
    (hc : response.choices.head? = none) :
    processRequest model r =
      failureResult (r.request_id.getD "unknown") "list index out of range" := by
  unfold processRequest
  rw [if_neg hm, he]
  dsimp only
  rw [hc]

/-- Equation: a response with a first choice yields the success result. -/
theorem processRequest_ok_some (model : ModelCall → Except String ModelResponse)
    (r : Request) (response : ModelResponse) (c : Choice)
    (hm : ¬r.messages.getD [] = [])
    (he : model (requestCall r) = .ok response)
    (hc : response.choices.head? = some c) :
    processRequest model r =
      { request_id := r.request_id.getD "unknown"
        success := true
        error := none
        content := c.message.content
        tool_calls := c.message.tool_calls
        usage := some (response.usage.getD []) } := by
  unfold processRequest
  rw [if_neg hm, he]
  dsimp only
  rw [hc]

/-- Inversion of a successful `LLMModel.call`. -/
theorem LLMModel.call_ok_iff (loader : Loader) (engine : Engine)
    (self started : LLMModel) (requests : List Request) (results : List Result) :
    LLMModel.call loader engine self requests = .ok (started, results) ↔
      LLMModel.start loader self = .ok started ∧
        results = processBatch (modelOf engine started) requests := by
  unfold LLMModel.call
  cases hs : LLMModel.start loader self with
  | error e => simp
  | ok s => constructor
            · intro h
              simp only [Except.ok.injEq, Prod.mk.injEq] at h
              obtain ⟨h1, h2⟩ := h
              subst h1
              exact ⟨rfl, h2.symm⟩
            · intro ⟨h1, h2⟩
              simp only [Except.ok.injEq] at h1
              subst h1 h2
              rfl

/-! ## C1 -/

/-- C1: for every batch passed to `LLMModel.__call__` that returns (rather
than raising), the returned list of results has exactly the same length as
the input, and the result at each position `i` is the one produced by
processing the request at that same position `i` — submission order is
preserved. -/
theorem infer_length_and_order (loader : Loader) (engine : Engine)
    (self started : LLMModel) (requests : List Request) (results : List Result)
    (h : LLMModel.call loader engine self requests = .ok (started, results)) :
    results.length = requests.length ∧
    ∀ i : Nat, i < requests.length →
      results[i]? = (requests[i]?).map (processRequest (modelOf engine started)) := by
  obtain ⟨-, hres⟩ := (LLMModel.call_ok_iff loader engine self started requests results).mp h
  subst hres
  rw [processBatch_eq_map]
  refine ⟨List.length_map _ _, fun i hi => ?_⟩
  rw [List.getElem?_map]

/-- Witness for C1 at a concrete two-request batch. -/
theorem infer_length_and_order_witness :
    (processBatch (modelOf engineW startedW) [reqA, reqB]).length = [reqA, reqB].length ∧
    ∀ i : Nat, i < [reqA, reqB].length →
      (processBatch (modelOf engineW startedW) [reqA, reqB])[i]? =
        ([reqA, reqB][i]?).map (processRequest (modelOf engineW startedW)) :=
  infer_length_and_order loaderW engineW (LLMModel.init "m" 8192 0) startedW
    [reqA, reqB] (processBatch (modelOf engineW startedW) [reqA, reqB]) (by rfl)

/-! ## C2 -/

/-- C2: if the model invocation for a request raises, the exception is
caught inside the loop (the batch map still returns), that request yields a
failure result carrying the exception message as `error`, and every other
request in the batch — before or after — is still processed by the very
same per-request function, unaffected. -/
theorem invocation_failure_isolated
    (model : ModelCall → Except String ModelResponse)
    (pre post : List Request) (r : Request) (e : String)
    (hm : r.messages.getD [] ≠ [])
    (he : model (requestCall r) = .error e) :
    processBatch model (pre ++ r :: post) =
      processBatch model pre ++
        failureResult (r.request_id.getD "unknown") e :: processBatch model post := by
  have hr : processRequest model r = failureResult (r.request_id.getD "unknown") e := by
    unfold processRequest
    rw [if_neg hm, he]
  induction pre with
  | nil => simpa [processBatch] using hr
  | cons p rest ih => simp [processBatch, ih]

/-- Witness for C2: request `reqA` fails with message `boom` while `reqB`,
after it, is still processed. -/
theorem invocation_failure_isolated_witness :
    processBatch (modelOf engineRaiseW startedW) ([] ++ reqA :: [reqB]) =
      processBatch (modelOf engineRaiseW startedW) [] ++
        failureResult "r1" "boom" :: processBatch (modelOf engineRaiseW startedW) [reqB] :=
  invocation_failure_isolated (modelOf engineRaiseW startedW) [] [reqB] reqA "boom"
    (by decide) (by rfl)

/-! ## C3 -/

/-- C3: a request whose effective `messages` sequence is empty (key absent
or empty list) yields, at its own positional slot, exactly the failure
result `success=false, error="empty_messages", content=null,
tool_calls=null` — with no `usage` key — and the model oracle is never
consulted for it (the result is the same under every oracle). -/
theorem empty_messages_rejected
    (model model₂ : ModelCall → Except String ModelResponse)
    (r : Request) (requests : List Request) (i : Nat)
    (hm : r.messages.getD [] = [])
    (hi : i < requests.length) (hr : requests[i] = r) :
    processRequest model r =
      { request_id := r.request_id.getD "unknown"
        success := false
        error := some "empty_messages"
        content := none
        tool_calls := none
        usage := none } ∧
    processRequest model₂ r = processRequest model r ∧
    (processBatch model requests)[i]? = some (processRequest model r) := by
  have hval : ∀ m : ModelCall → Except String ModelResponse,
      processRequest m r = failureResult (r.request_id.getD "unknown") "empty_messages" := by
    intro m
    unfold processRequest
    rw [if_pos hm]
  refine ⟨hval model, (hval model₂).trans (hval model).symm, ?_⟩
  rw [processBatch_eq_map, List.getElem?_map, List.getElem?_eq_getElem hi, hr]
  rfl

/-- Witness for C3 at the batch `[reqA, reqEmptyW]`, position 1. -/
theorem empty_messages_rejected_witness :
    processRequest (modelOf engineW startedW) reqEmptyW =
      { request_id := "unknown"
        success := false
        error := some "empty_messages"
        content := none
        tool_calls := none
        usage := none } ∧
    processRequest (modelOf engineRaiseW startedW) reqEmptyW =
      processRequest (modelOf engineW startedW) reqEmptyW ∧
    (processBatch (modelOf engineW startedW) [reqA, reqEmptyW])[1]? =
      some (processRequest (modelOf engineW startedW) reqEmptyW) :=
  empty_messages_rejected (modelOf engineW startedW) (modelOf engineRaiseW startedW)
    reqEmptyW [reqA, reqEmptyW] 1 (by rfl) (by decide) (by rfl)

/-! ## C4 -/

/-- C4 counterexample: a batch of size 2 whose model loading raises
wholesale.  `LLMService.__call__` propagates the exception: the call yields
no result list at all, so the 2 requests do not each receive a
`success=false` result as the claim states. -/
theorem wholesale_failure_loses_results :
    LLMService.call badLoaderW engineW (LLMService.init "m" 8192 0) [reqA, reqB] =
      .error "failed to load model" ∧
    ¬ ∃ p : LLMService × List Result,
        LLMService.call badLoaderW engineW (LLMService.init "m" 8192 0) [reqA, reqB] =
          .ok p := by
  refine ⟨rfl, ?_⟩
  rintro ⟨p, hp⟩
  rw [show LLMService.call badLoaderW engineW (LLMService.init "m" 8192 0) [reqA, reqB] =
        .error "failed to load model" from rfl] at hp
  exact absurd hp (by simp)

/-- C4 amended: when the model is not yet loaded and loading raises, the
whole batch call propagates the load exception out of both
`LLMModel.__call__` and `LLMService.__call__`, producing no results; the
hosting runtime, not this code, is left to deliver the failure to callers
(per-request failures, by contrast, are contained by C2). -/
theorem wholesale_failure_propagates (loader : Loader) (engine : Engine)
    (self : LLMService) (requests : List Request) (e : String)
    (hnone : self.model.model = none)
    (hfail : loader self.model.model_path self.model.n_ctx self.model.n_gpu_layers =
      .error e) :
    LLMService.call loader engine self requests = .error e ∧
    LLMModel.call loader engine self.model requests = .error e := by
  have hmodel : LLMModel.call loader engine self.model requests = .error e := by
    unfold LLMModel.call LLMModel.start
    rw [hnone, hfail]
  refine ⟨?_, hmodel⟩
  unfold LLMService.call
  rw [hmodel]

/-- Witness for the amended C4 at the concrete failing loader. -/
theorem wholesale_failure_propagates_witness :
    LLMService.call badLoaderW engineW (LLMService.init "m2" 8192 0) [reqA] =
      .error "failed to load model" ∧
    LLMModel.call badLoaderW engineW (LLMService.init "m2" 8192 0).model [reqA] =
      .error "failed to load model" :=
  wholesale_failure_propagates badLoaderW engineW (LLMService.init "m2" 8192 0)
    [reqA] "failed to load model" (by rfl) (by rfl)

/-! ## C5 -/

/-- C5 counterexample: `reconfigure` with `max_batch_size = 0` does not
validate and does not leave the previous config untouched: the active
attribute, previously 16, is already overwritten to 0 when the method
raises; and the error raised is the same `AttributeError` that a config
satisfying the claimed validation rules also triggers, so the failure is
the line-135 attribute bug, not an `InvalidConfig` validation. -/
theorem reconfigure_zero_not_validated :
    ((LLMService.init "m" 8192 0).reconfigure cfgZeroW).1.max_batch_size = 0 ∧
    (LLMService.init "m" 8192 0).max_batch_size = 16 ∧
    ((LLMService.init "m" 8192 0).reconfigure cfgZeroW).1.max_batch_size ≠
      (LLMService.init "m" 8192 0).max_batch_size ∧
    ((LLMService.init "m" 8192 0).reconfigure cfgZeroW).2 =
      some "AttributeError: function object has no attribute set_max_batch_size" ∧
    ((LLMService.init "m" 8192 0).reconfigure cfgValidW).2 =
      some "AttributeError: function object has no attribute set_max_batch_size" := by
  refine ⟨rfl, rfl, ?_, rfl, rfl⟩
  decide

/-- C5 amended: `reconfigure` performs no validation and never returns
normally: for every `user_config` it first overwrites the two instance
attributes `max_batch_size` and `batch_wait_timeout_s` with the provided
values (defaults 16 and 0.05 for absent keys), then raises
`AttributeError` while trying to update the `serve.batch` wrapper through
the undecorated `LLMModel.__call__`; the wrapper parameters that actually
govern batching are never changed. -/
theorem reconfigure_mutates_then_raises (self : LLMService) (cfg : UserConfig) :
    (LLMService.reconfigure self cfg).1.max_batch_size =
      cfg.max_batch_size.getD 16 ∧
    (LLMService.reconfigure self cfg).1.batch_wait_timeout_s =
      cfg.batch_wait_timeout_s.getD (1/20) ∧
    (LLMService.reconfigure self cfg).1.serve_max_batch_size =
      self.serve_max_batch_size ∧
    (LLMService.reconfigure self cfg).1.serve_batch_wait_timeout_s =
      self.serve_batch_wait_timeout_s ∧
    (LLMService.reconfigure self cfg).1.model = self.model ∧
    (LLMService.reconfigure self cfg).2 =
      some "AttributeError: function object has no attribute set_max_batch_size" :=
  ⟨rfl, rfl, rfl, rfl, rfl, rfl⟩

/-! ## C6 -/

/-- C6: every result produced by the batch loop satisfies the invariant
`success = true ⇒ error = null` and
`success = false ⇒ content = null ∧ tool_calls = null`. -/
theorem result_success_invariant (model : ModelCall → Except String ModelResponse)
    (requests : List Request) (res : Result)
    (h : res ∈ processBatch model requests) :
    (res.success = true → res.error = none) ∧
    (res.success = false → res.content = none ∧ res.tool_calls = none) := by
  rw [processBatch_eq_map] at h
  obtain ⟨r, -, rfl⟩ := List.mem_map.mp h
  unfold processRequest failureResult
  dsimp only
  by_cases hm : r.messages.getD [] = []
  · rw [if_pos hm]
    exact ⟨by simp, by simp⟩
  · rw [if_neg hm]
    cases he : model (requestCall r) with
    | error e => exact ⟨by simp, by simp⟩
    | ok response =>
      cases hc : response.choices.head? with
      | none => exact ⟨by simp [hc], by simp [hc]⟩
      | some c => exact ⟨by simp [hc], by simp [hc]⟩

/-- Witness for C6 at a concrete in-batch result. -/
theorem result_success_invariant_witness :
    ((processRequest (modelOf engineW startedW) reqA).success = true →
      (processRequest (modelOf engineW startedW) reqA).error = none) ∧
    ((processRequest (modelOf engineW startedW) reqA).success = false →
      (processRequest (modelOf engineW startedW) reqA).content = none ∧
        (processRequest (modelOf engineW startedW) reqA).tool_calls = none) :=
  result_success_invariant (modelOf engineW startedW) [reqA]
    (processRequest (modelOf engineW startedW) reqA) (by decide)

/-! ## C7 -/

/-- C7: loading is lazy and idempotent.  From an unloaded state a
successful load stores the model built from the construction-time
`model_path`, `n_ctx`, `n_gpu_layers`; a second `start` — under any loader
whatsoever — performs no load and leaves the state unchanged, so the model
is loaded at most once; `__call__` triggers the load on the first inference
call and a later `__call__` on the loaded state leaves the model as is. -/
theorem model_loading_lazy_idempotent (loader loader₂ : Loader) (engine : Engine)
    (self : LLMModel) (m : LoadedModel) (requests : List Request)
    (hnone : self.model = none)
    (hload : loader self.model_path self.n_ctx self.n_gpu_layers = .ok m) :
    LLMModel.start loader self = .ok { self with model := some m } ∧
    LLMModel.start loader₂ { self with model := some m } =
      .ok { self with model := some m } ∧
    LLMModel.call loader engine self requests =
      .ok ({ self with model := some m },
        processBatch (modelOf engine { self with model := some m }) requests) ∧
    LLMModel.call loader₂ engine { self with model := some m } requests =
      .ok ({ self with model := some m },
        processBatch (modelOf engine { self with model := some m }) requests) := by
  have h1 : LLMModel.start loader self = .ok { self with model := some m } := by
    unfold LLMModel.start
    rw [hnone, hload]
  have h2 : LLMModel.start loader₂ { self with model := some m } =
      .ok { self with model := some m } := by
    unfold LLMModel.start
    rfl
  refine ⟨h1, h2, ?_, ?_⟩
  · unfold LLMModel.call
    rw [h1]
  · unfold LLMModel.call
    rw [h2]

/-- Witness for C7: the first call loads with `loaderW`; the second
`start` is run under the always-failing `badLoaderW` and still succeeds
unchanged, showing no loader is consulted once loaded. -/
theorem model_loading_lazy_idempotent_witness :
    LLMModel.start loaderW (LLMModel.init "m" 8192 0) =
      .ok { LLMModel.init "m" 8192 0 with model := some { handle := 0 } } ∧
    LLMModel.start badLoaderW
        { LLMModel.init "m" 8192 0 with model := some { handle := 0 } } =
      .ok { LLMModel.init "m" 8192 0 with model := some { handle := 0 } } ∧
    LLMModel.call loaderW engineW (LLMModel.init "m" 8192 0) [reqA] =
      .ok ({ LLMModel.init "m" 8192 0 with model := some { handle := 0 } },
        processBatch
          (modelOf engineW { LLMModel.init "m" 8192 0 with model := some { handle := 0 } })
          [reqA]) ∧
    LLMModel.call badLoaderW engineW
        { LLMModel.init "m" 8192 0 with model := some { handle := 0 } } [reqA] =
      .ok ({ LLMModel.init "m" 8192 0 with model := some { handle := 0 } },
        processBatch
          (modelOf engineW { LLMModel.init "m" 8192 0 with model := some { handle := 0 } })
          [reqA]) :=
  model_loading_lazy_idempotent loaderW badLoaderW engineW (LLMModel.init "m" 8192 0)
    { handle := 0 } [reqA] (by rfl) (by rfl)

/-! ## C8 -/

/-- C8: for a request with non-empty messages, the chat-completion call
carries exactly the request's effective `messages`, `max_tokens`,
`temperature`, `tools` and `tool_choice`; structured JSON output
(`response_format = {"type": "json_object"}`) is requested iff `tools` is a
non-empty sequence (absent, null or empty requests none); and the produced
result depends on the model oracle only through its value at that one
call. -/
theorem model_invocation_arguments
    (model model₂ : ModelCall → Except String ModelResponse) (r : Request)
    (hm : r.messages.getD [] ≠ [])
    (hagree : model₂ (requestCall r) = model (requestCall r)) :
    (requestCall r).messages = r.messages.getD [] ∧
    (requestCall r).max_tokens = r.max_tokens.getD 512 ∧
    (requestCall r).temperature = r.temperature.getD (1/10) ∧
    (requestCall r).tools = r.tools ∧
    (requestCall r).tool_choice = r.tool_choice ∧
    ((requestCall r).response_format = some { rtype := "json_object" } ↔
      r.tools.getD [] ≠ []) ∧
    ((requestCall r).response_format = none ↔ r.tools.getD [] = []) ∧
    processRequest model₂ r = processRequest model r := by
  refine ⟨rfl, rfl, rfl, rfl, rfl, ?_, ?_, ?_⟩
  · cases ht : r.tools with
    | none => simp [requestCall, pyTruthy, ht]
    | some l =>
      cases l with
      | nil => simp [requestCall, pyTruthy, ht]
      | cons a as => simp [requestCall, pyTruthy, ht]
  · cases ht : r.tools with
    | none => simp [requestCall, pyTruthy, ht]
    | some l =>
      cases l with
      | nil => simp [requestCall, pyTruthy, ht]
      | cons a as => simp [requestCall, pyTruthy, ht]
  · unfold processRequest
    dsimp only
    rw [if_neg hm, if_neg hm, hagree]

/-- Witness for C8 at `reqB`, whose `tools` list is non-empty. -/
theorem model_invocation_arguments_witness :
    (requestCall reqB).messages = reqB.messages.getD [] ∧
    (requestCall reqB).max_tokens = reqB.max_tokens.getD 512 ∧
    (requestCall reqB).temperature = reqB.temperature.getD (1/10) ∧
    (requestCall reqB).tools = reqB.tools ∧
    (requestCall reqB).tool_choice = reqB.tool_choice ∧
    ((requestCall reqB).response_format = some { rtype := "json_object" } ↔
      reqB.tools.getD [] ≠ []) ∧
    ((requestCall reqB).response_format = none ↔ reqB.tools.getD [] = []) ∧
    processRequest (modelOf engineW startedW) reqB =
      processRequest (modelOf engineW startedW) reqB :=
  model_invocation_arguments (modelOf engineW startedW) (modelOf engineW startedW)
    reqB (by decide) (by rfl)

/-! ## C9 -/

/-- C9: when the optional fields are absent, the invocation uses exactly
the documented defaults `max_tokens = 512`, `temperature = 0.1`,
`tools = none`, `tool_choice = none` (and hence no structured output). -/
theorem absent_fields_defaults (r : Request)
    (hmt : r.max_tokens = none) (htemp : r.temperature = none)
    (htools : r.tools = none) (htc : r.tool_choice = none) :
    (requestCall r).max_tokens = 512 ∧
    (requestCall r).temperature = 1/10 ∧
    (requestCall r).tools = none ∧
    (requestCall r).tool_choice = none ∧
    (requestCall r).response_format = none := by
  simp [requestCall, pyTruthy, hmt, htemp, htools, htc]

/-- Witness for C9 at `reqA`, whose optional fields are all absent. -/
theorem absent_fields_defaults_witness :
    (requestCall reqA).max_tokens = 512 ∧
    (requestCall reqA).temperature = 1/10 ∧
    (requestCall reqA).tools = none ∧
    (requestCall reqA).tool_choice = none ∧
    (requestCall reqA).response_format = none :=
  absent_fields_defaults reqA (by rfl) (by rfl) (by rfl) (by rfl)

/-! ## C10 -/

/-- C10: failure results (empty messages or caught exception) carry no
`usage` key at all; success results always carry one — the response's
reported usage, or the empty mapping when the response has none; and a
request without a `request_id` key is reported as `"unknown"`. -/
theorem usage_and_request_id_defaults
    (model : ModelCall → Except String ModelResponse) (r : Request)
    (response : ModelResponse) (c : Choice) :
    ((processRequest model r).success = false →
      (processRequest model r).usage = none) ∧
    ((processRequest model r).success = true →
      (processRequest model r).usage.isSome = true) ∧
    (r.messages.getD [] ≠ [] → model (requestCall r) = .ok response →
      response.choices.head? = some c →
      (processRequest model r).usage = some (response.usage.getD [])) ∧
    (r.request_id = none → (processRequest model r).request_id = "unknown") := by
  by_cases hm : r.messages.getD [] = []
  · rw [processRequest_empty model r hm]
    exact ⟨fun _ => rfl, fun hs => absurd hs (by simp [failureResult]),
      fun hne => absurd hm hne, fun h => by simp [failureResult, h]⟩
  · cases he : model (requestCall r) with
    | error e =>
      rw [processRequest_error model r e hm he]
      refine ⟨fun _ => rfl, fun hs => absurd hs (by simp [failureResult]), ?_,
        fun h => by simp [failureResult, h]⟩
      intro _ hok
      exact absurd hok (by simp)
    | ok resp =>
      cases hc : resp.choices.head? with
      | none =>
        rw [processRequest_ok_none model r resp hm he hc]
        refine ⟨fun _ => rfl, fun hs => absurd hs (by simp [failureResult]), ?_,
          fun h => by simp [failureResult, h]⟩
        intro _ hok hcc
        injection hok with h1
        subst h1
        rw [hc] at hcc
        exact Option.noConfusion hcc
      | some c0 =>
        rw [processRequest_ok_some model r resp c0 hm he hc]
        refine ⟨fun hs => absurd hs (by simp), fun _ => rfl, ?_, fun h => by simp [h]⟩
        intro _ hok hcc
        injection hok with h1
        subst h1
        rfl

/-- Witness for C10 at `reqA` and the concrete engine response. -/
theorem usage_and_request_id_defaults_witness :
    ((processRequest (modelOf engineW startedW) reqA).success = false →
      (processRequest (modelOf engineW startedW) reqA).usage = none) ∧
    ((processRequest (modelOf engineW startedW) reqA).success = true →
      (processRequest (modelOf engineW startedW) reqA).usage.isSome = true) ∧
    (reqA.messages.getD [] ≠ [] →
      modelOf engineW startedW (requestCall reqA) = .ok respW →
      respW.choices.head? = some { message := { content := some "hi", tool_calls := none } } →
      (processRequest (modelOf engineW startedW) reqA).usage =
        some (respW.usage.getD [])) ∧
    (reqA.request_id = none →
      (processRequest (modelOf engineW startedW) reqA).request_id = "unknown") :=
  usage_and_request_id_defaults (modelOf engineW startedW) reqA respW
    { message := { content := some "hi", tool_calls := none } }
